import Mathlib

/-!
Verification of the Edutizim school-information-system backend.

The definitions below are a shallow embedding of the JavaScript source:
role-based route middleware (src/routes/grades.js, attendance/teacher/student
routes), the grade and attendance controllers (updateGrade, markAttendance,
batchMarkAttendance, getGradeStatistics, getAttendanceStatistics) and the
pure helpers of src/utils/helpers.js (calculateGPA, getGradeLevel,
calculateAttendanceRate, getAcademicYearForDate, getSemesterForDate).

JavaScript numbers that the code compares and averages are modelled as ℚ,
JS `Math.round` as `jsRound` (floor of x + 1/2, which is what Math.round
computes for the non-negative values arising here), optional / possibly
`undefined` values as `Option`, and the database tables touched by the
controllers as explicit lists of records threaded through the functions.
-/

namespace Edutizim

/-- JavaScript `Math.round x` = `⌊x + 1/2⌋` (round half towards +∞). -/
def jsRound (x : ℚ) : ℤ := ⌊x + 1/2⌋

/-- Rounding to two decimals as written in the source: `Math.round(x * 100) / 100`. -/
def round2 (x : ℚ) : ℚ := (jsRound (x * 100) : ℚ) / 100

/-- The four user roles of the `users.role` enum. -/
inductive Role where
  | admin
  | teacher
  | parent
  | student
deriving DecidableEq, Repr

/-- The authenticated caller as the route handlers see `req.user`: the role
plus the optional role-specific profile rows (`studentProfile`,
`teacherProfile`, `guardianProfile`) used as ownership anchors.  A profile
that is absent (`undefined` in JS) is `none`. -/
structure AuthUser where
  role : Role
  studentProfileId : Option String
  teacherProfileId : Option String
  guardianProfileId : Option String
deriving DecidableEq, Repr

/-- JS truthiness of an optional string (`if (s) ...`): `undefined` and the
empty string are falsy. -/
def truthyStr : Option String → Option String
  | none => none
  | some s => if s = "" then none else some s

/-- JS truthiness of an optional number (`if (n) ...`): `undefined` and 0 are falsy. -/
def truthyNat : Option Nat → Option Nat
  | none => none
  | some n => if n = 0 then none else some n

/-- `option-present-overwrites` update semantics of `row.update(data)`:
a key present in the payload overwrites the stored column, an absent key
leaves it unchanged. -/
def optUpd {α : Type} : Option α → Option α → Option α
  | some x, _ => some x
  | none, old => old

/-! ## Query composition for the listing endpoints (claim C1) -/

/-- The validated query string of `GET /api/grades` (routes/grades.js). -/
structure GradesQuery where
  studentId : Option String
  subjectId : Option String
  classId : Option String
  semester : Option Nat
  academicYear : Option String
  gradeType : Option String
deriving DecidableEq, Repr

/-- The validated query string of `GET /api/attendance`. -/
structure AttendanceQuery where
  studentId : Option String
  classId : Option String
  subjectId : Option String
  date : Option String
  startDate : Option String
  endDate : Option String
  status : Option String
deriving DecidableEq, Repr

/-- Role-based filtering middleware of `GET /api/grades` (routes/grades.js):
teachers and parents fall through to the controller, a student without a
profile is denied with 403, and for a student with a profile the
caller-supplied `studentId` query value is overwritten with the student's
own profile id before the controller runs. -/
def gradesListMiddleware (u : AuthUser) (q : GradesQuery) : Except Nat GradesQuery :=
  match u.role with
  | Role.student =>
      match u.studentProfileId with
      | none => Except.error 403
      | some pid => Except.ok { q with studentId := some pid }
  | _ => Except.ok q

/-- Role-based filtering middleware of `GET /api/attendance`
(attendance routes file), identical in structure to the grades one. -/
def attendanceListMiddleware (u : AuthUser) (q : AttendanceQuery) : Except Nat AttendanceQuery :=
  match u.role with
  | Role.student =>
      match u.studentProfileId with
      | none => Except.error 403
      | some pid => Except.ok { q with studentId := some pid }
  | _ => Except.ok q

/-- The sequelize `where` clause assembled by `getAllGrades`.  The
`teacherId` component is `some v` when the controller put the key into the
clause (teacher role), where `v` is the teacher-profile id (possibly
`undefined`, i.e. `none`). -/
structure GradeWhere where
  studentId : Option String
  subjectId : Option String
  classId : Option String
  semester : Option Nat
  academicYear : Option String
  gradeType : Option String
  teacherId : Option (Option String)
deriving DecidableEq, Repr

/-- `getAllGrades` where-clause construction (gradeController): each truthy
query value becomes a filter, and for teachers the clause is additionally
narrowed to `teacherId = req.user.teacherProfile?.id`. -/
def getAllGradesWhere (u : AuthUser) (q : GradesQuery) : GradeWhere :=
  { studentId := truthyStr q.studentId
  , subjectId := truthyStr q.subjectId
  , classId := truthyStr q.classId
  , semester := truthyNat q.semester
  , academicYear := truthyStr q.academicYear
  , gradeType := truthyStr q.gradeType
  , teacherId := if u.role = Role.teacher then some u.teacherProfileId else none }

/-- The date component of the attendance where clause: exact date wins over
a start/end range, which is only applied when both bounds are given. -/
inductive DateWhere where
  | noFilter
  | exact (d : String)
  | between (s e : String)
deriving DecidableEq, Repr

/-- The sequelize `where` clause assembled by `getAllAttendance`. -/
structure AttendanceWhere where
  studentId : Option String
  classId : Option String
  subjectId : Option String
  status : Option String
  date : DateWhere
  teacherId : Option (Option String)
deriving DecidableEq, Repr

/-- `getAllAttendance` where-clause construction (attendanceController). -/
def getAllAttendanceWhere (u : AuthUser) (q : AttendanceQuery) : AttendanceWhere :=
  { studentId := truthyStr q.studentId
  , classId := truthyStr q.classId
  , subjectId := truthyStr q.subjectId
  , status := truthyStr q.status
  , date :=
      match truthyStr q.date with
      | some d => DateWhere.exact d
      | none =>
          match truthyStr q.startDate, truthyStr q.endDate with
          | some s, some e => DateWhere.between s e
          | _, _ => DateWhere.noFilter
  , teacherId := if u.role = Role.teacher then some u.teacherProfileId else none }

/-! ## Own-profile detail gates (claim C2) -/

/-- Outcome of an inline route authorization check. -/
inductive Gate where
  | allow
  | deny403
deriving DecidableEq, Repr

/-- Inline check of `GET /api/teachers/:id`: a teacher without a profile, or
whose profile id differs from the path id, is denied; every other role
falls through to the controller. -/
def teacherDetailGate (u : AuthUser) (paramId : String) : Gate :=
  if u.role = Role.teacher then
    match u.teacherProfileId with
    | none => Gate.deny403
    | some pid => if pid ≠ paramId then Gate.deny403 else Gate.allow
  else Gate.allow

/-- Inline check of `GET /api/students/:id`: a student without a profile, or
whose profile id differs from the path id, is denied; every other role
(including parent, whose guardian-relationship check is left to the
controller) falls through. -/
def studentDetailGate (u : AuthUser) (paramId : String) : Gate :=
  if u.role = Role.student then
    match u.studentProfileId with
    | none => Gate.deny403
    | some pid => if pid ≠ paramId then Gate.deny403 else Gate.allow
  else Gate.allow

/-! ## Grade store and updateGrade (claims C3, C10) -/

/-- A stored row of the `grades` table, restricted to the columns the
controllers read or write.  `teacherId` is nullable in the schema. -/
structure GradeRec where
  id : String
  studentId : String
  subjectId : String
  classId : String
  teacherId : Option String
  gradeValue : ℚ
  gradeType : String
  semester : Nat
  academicYear : String
  weight : Option ℚ
  comments : Option String
deriving DecidableEq, Repr

/-- The request body of grade create/update as the controller sees it.
The Joi schema has no `teacherId` key, so a validated body carries
`teacherId = none` until the controller itself sets it for teacher callers;
the field is kept here because `createGrade` writes into it. -/
structure GradeBody where
  studentId : String
  subjectId : String
  classId : String
  gradeValue : ℚ
  gradeType : String
  semester : Nat
  academicYear : String
  weight : Option ℚ
  comments : Option String
  teacherId : Option String
deriving DecidableEq, Repr

/-- `grade.update(updateData)`: keys present in the payload overwrite the
row, absent optional keys leave it unchanged; the row id never changes. -/
def applyGradeUpdate (b : GradeBody) (g : GradeRec) : GradeRec :=
  { g with
    studentId := b.studentId
  , subjectId := b.subjectId
  , classId := b.classId
  , gradeValue := b.gradeValue
  , gradeType := b.gradeType
  , semester := b.semester
  , academicYear := b.academicYear
  , weight := optUpd b.weight g.weight
  , comments := optUpd b.comments g.comments
  , teacherId := optUpd b.teacherId g.teacherId }

/-- JS strict equality between `grade.teacherId` (a nullable column) and
`req.user.teacherProfile?.id` (possibly `undefined`): `null !== undefined`,
so the two agree only when both are strings and equal. -/
def sameOwner : Option String → Option String → Bool
  | some a, some b => a == b
  | _, _ => false

/-- Status code plus resulting table state of a mutating endpoint. -/
structure UpdateOutcome where
  status : Nat
  store : List GradeRec
deriving DecidableEq, Repr

/-- `updateGrade` (gradeController): 404 when no grade has the path id, 403
when a teacher caller does not own the grade, otherwise the grade row is
overwritten with the validated body and 200 is returned. -/
def updateGrade (u : AuthUser) (id : String) (b : GradeBody) (store : List GradeRec) :
    UpdateOutcome :=
  match store.find? (fun g => g.id == id) with
  | none => ⟨404, store⟩
  | some g =>
      if u.role = Role.teacher ∧ sameOwner g.teacherId u.teacherProfileId = false
      then ⟨403, store⟩
      else ⟨200, store.map (fun r => if r.id == id then applyGradeUpdate b r else r)⟩

/-- `createGrade` (gradeController): for a teacher caller the body's
`teacherId` is overwritten with the caller's own teacher-profile id before
the row is inserted; other roles insert the body as validated. -/
def createGradeData (u : AuthUser) (b : GradeBody) : GradeBody :=
  if u.role = Role.teacher then { b with teacherId := u.teacherProfileId } else b

/-- `batchCreateGrades` (gradeController): the same override applied to
every element of the batch. -/
def batchCreateGradesData (u : AuthUser) (gs : List GradeBody) : List GradeBody :=
  if u.role = Role.teacher
  then gs.map (fun g => { g with teacherId := u.teacherProfileId })
  else gs

/-! ## Attendance store, markAttendance and batchMarkAttendance (claims C4, C5, C10) -/

/-- A stored row of the `attendances` table. -/
structure AttRec where
  id : Nat
  studentId : String
  classId : String
  subjectId : Option String
  date : String
  teacherId : Option String
  status : String
  timeIn : Option String
  timeOut : Option String
  reason : Option String
  notes : Option String
deriving DecidableEq, Repr

/-- The validated body of `POST /api/attendance`; as with grades, the Joi
schema has no `teacherId` key, the controller writes it for teacher callers. -/
structure AttBody where
  studentId : String
  classId : String
  subjectId : Option String
  date : String
  status : String
  timeIn : Option String
  timeOut : Option String
  reason : Option String
  notes : Option String
  teacherId : Option String
deriving DecidableEq, Repr

/-- The teacher-role override at the top of `markAttendance` and
`batchMarkAttendance`: `attendanceData.teacherId = req.user.teacherProfile?.id`. -/
def attendanceData (u : AuthUser) (b : AttBody) : AttBody :=
  if u.role = Role.teacher then { b with teacherId := u.teacherProfileId } else b

/-- The upsert key (studentId, classId, date) of the attendance uniqueness
invariant. -/
abbrev AttKey := String × String × String

def attKey (r : AttRec) : AttKey := (r.studentId, r.classId, r.date)

def bodyKey (b : AttBody) : AttKey := (b.studentId, b.classId, b.date)

/-- The `findOne` predicate of `markAttendance`: an existing row matches the
payload when studentId, classId and date all coincide. -/
def keyMatch (r : AttRec) (b : AttBody) : Bool :=
  r.studentId == b.studentId && r.classId == b.classId && r.date == b.date

/-- `existingAttendance.update(attendanceData)`: required keys overwrite,
optional absent keys stay. -/
def applyAttUpdate (b : AttBody) (r : AttRec) : AttRec :=
  { r with
    studentId := b.studentId
  , classId := b.classId
  , date := b.date
  , status := b.status
  , subjectId := optUpd b.subjectId r.subjectId
  , timeIn := optUpd b.timeIn r.timeIn
  , timeOut := optUpd b.timeOut r.timeOut
  , reason := optUpd b.reason r.reason
  , notes := optUpd b.notes r.notes
  , teacherId := optUpd b.teacherId r.teacherId }

/-- `Attendance.create(attendanceData)` with a fresh surrogate id. -/
def createAttRec (b : AttBody) (fresh : Nat) : AttRec :=
  ⟨fresh, b.studentId, b.classId, b.subjectId, b.date, b.teacherId, b.status,
   b.timeIn, b.timeOut, b.reason, b.notes⟩

/-- In-place update of the row `findOne` returned: the first row matching
the payload's key is overwritten, everything else is untouched. -/
def updateFirstMatch (b : AttBody) : List AttRec → List AttRec
  | [] => []
  | r :: rs => if keyMatch r b then applyAttUpdate b r :: rs else r :: updateFirstMatch b rs

/-- `markAttendance` (attendanceController): after the teacher override,
the record for (studentId, classId, date) is updated in place when it
exists (HTTP 200) and created otherwise (HTTP 201). -/
def markAttendance (u : AuthUser) (b : AttBody) (fresh : Nat) (store : List AttRec) :
    Nat × List AttRec :=
  let d := attendanceData u b
  match store.find? (fun r => keyMatch r d) with
  | some _ => (200, updateFirstMatch d store)
  | none => (201, store ++ [createAttRec d fresh])

/-- The sequential loop of `batchMarkAttendance`.  Row creation is the one
fallible step of the loop: the database rejects a record whose `studentId`
does not reference an existing student (foreign-key constraint), which the
controller's catch block turns into a blanket 500 response; the rows
upserted before the failure stay committed because no transaction wraps
the loop.  `validStudents` models the set of existing student ids. -/
def batchLoop (validStudents : List String) (u : AuthUser) :
    List AttBody → Nat → List AttRec → Nat × List AttRec
  | [], _, store => (200, store)
  | b :: rest, fresh, store =>
      let d := attendanceData u b
      match store.find? (fun r => keyMatch r d) with
      | some _ => batchLoop validStudents u rest fresh (updateFirstMatch d store)
      | none =>
          if d.studentId ∈ validStudents
          then batchLoop validStudents u rest (fresh + 1) (store ++ [createAttRec d fresh])
          else (500, store)

/-- `batchMarkAttendance` (attendanceController): 400 on an empty records
array, otherwise the sequential per-record upsert loop. -/
def batchMarkAttendance (validStudents : List String) (u : AuthUser)
    (bodies : List AttBody) (fresh : Nat) (store : List AttRec) : Nat × List AttRec :=
  if bodies.isEmpty then (400, store) else batchLoop validStudents u bodies fresh store

/-- The store evolution of the upsert loop alone (no failure), used to
state what `batchMarkAttendance` has committed when it halts partway. -/
def upsertAll (u : AuthUser) : List AttBody → Nat → List AttRec → Nat × List AttRec
  | [], fresh, store => (fresh, store)
  | b :: rest, fresh, store =>
      let d := attendanceData u b
      match store.find? (fun r => keyMatch r d) with
      | some _ => upsertAll u rest fresh (updateFirstMatch d store)
      | none => upsertAll u rest (fresh + 1) (store ++ [createAttRec d fresh])

/-- Number of stored rows with a given upsert key. -/
def countKey (store : List AttRec) (k : AttKey) : Nat :=
  (store.filter (fun r => attKey r == k)).length

/-! ## Aggregate calculator (claims C6, C7, C8) -/

/-- The grade distribution of `getGradeStatistics` (gradeController), as the
tuple (excellent, good, satisfactory, unsatisfactory): the four `filter`
counts with the fixed boundaries 85 / 70 / 60. -/
def gradeDistribution (gradeValues : List ℚ) : Nat × Nat × Nat × Nat :=
  ( (gradeValues.filter (fun g => decide (85 ≤ g))).length
  , (gradeValues.filter (fun g => decide (70 ≤ g) && decide (g < 85))).length
  , (gradeValues.filter (fun g => decide (60 ≤ g) && decide (g < 70))).length
  , (gradeValues.filter (fun g => decide (g < 60))).length )

/-- `Helpers.getGradeLevel` (utils/helpers.js), restricted to the level name. -/
def getGradeLevel (g : ℚ) : String :=
  if 85 ≤ g then "excellent"
  else if 70 ≤ g then "good"
  else if 60 ≤ g then "satisfactory"
  else "unsatisfactory"

/-- The return value of `Helpers.calculateAttendanceRate`. -/
structure AttRateStats where
  rate : ℤ
  total : Nat
  present : Nat
  absent : Nat
  late : Nat
  excused : Nat
deriving DecidableEq, Repr

/-- `Helpers.calculateAttendanceRate` (utils/helpers.js): zero statistics on
an empty record set, otherwise per-status counts and
`Math.round((present + late) / total * 100)`, late counting as attended. -/
def calculateAttendanceRate (records : List AttRec) : AttRateStats :=
  if records.isEmpty then ⟨0, 0, 0, 0, 0, 0⟩
  else
    let total := records.length
    let present := (records.filter (fun a => a.status == "present")).length
    let absent := (records.filter (fun a => a.status == "absent")).length
    let late := (records.filter (fun a => a.status == "late")).length
    let excused := (records.filter (fun a => a.status == "excused")).length
    let attendedDays := present + late
    ⟨jsRound (((attendedDays : ℚ) / (total : ℚ)) * 100), total, present, absent, late, excused⟩

/-- The per-student rate computed inside `getAttendanceReport`
(attendanceController): `total > 0 ? Math.round((present + late) / total * 100) : 0`. -/
def reportAttendanceRate (present late total : Nat) : ℤ :=
  if 0 < total then jsRound ((((present : ℚ) + (late : ℚ)) / (total : ℚ)) * 100) else 0

/-- A grade as `Helpers.calculateGPA` consumes it: a value and an optional
weight column. -/
structure GradeWV where
  gradeValue : ℚ
  weight : Option ℚ
deriving DecidableEq, Repr

/-- JS `grade.weight || 1`: both `undefined` and `0` are falsy and fall
back to 1. -/
def jsWeight : Option ℚ → ℚ
  | none => 1
  | some w => if w = 0 then 1 else w

/-- `Helpers.calculateGPA` (utils/helpers.js): 0 on an empty list; weighted
mean of `gradeValue * (weight || 1)` over `(weight || 1)` rounded to two
decimals when weights are used (0 when the total weight is not positive),
plain mean rounded to two decimals otherwise. -/
def calculateGPA (grades : List GradeWV) (useWeights : Bool) : ℚ :=
  if grades.isEmpty then 0
  else if useWeights then
    let totalPoints := grades.foldl (fun sum g => sum + g.gradeValue * jsWeight g.weight) 0
    let totalWeight := grades.foldl (fun sum g => sum + jsWeight g.weight) 0
    if 0 < totalWeight then round2 (totalPoints / totalWeight) else 0
  else
    let total := grades.foldl (fun sum g => sum + g.gradeValue) 0
    round2 (total / (grades.length : ℚ))

/-- The weighted GPA exactly as claim C8 states it (refinement reference,
not source code): `sum(gradeValue * weight) / sum(weight)` rounded to two
decimals, with the weight defaulting to 1 only when absent, and 0 for the
empty list. -/
def claimWeightedGPA (grades : List GradeWV) : ℚ :=
  if grades.isEmpty then 0
  else round2 (((grades.map (fun g => g.gradeValue * g.weight.getD 1)).sum) /
               ((grades.map (fun g => g.weight.getD 1)).sum))

/-! ## Academic calendar helpers (claim C9) -/

/-- `Helpers.getAcademicYearForDate` (utils/helpers.js): month ≥ 9 starts
the academic year of the date's calendar year, otherwise the date belongs
to the academic year started the year before.  A date is represented by
its calendar year and 1-based month. -/
def getAcademicYearForDate (year : ℤ) (month : ℕ) : String :=
  if 9 ≤ month then toString year ++ "-" ++ toString (year + 1)
  else toString (year - 1) ++ "-" ++ toString year

/-- `Helpers.getSemesterForDate` (utils/helpers.js): September–January is
semester 1, February–June semester 2, and the summer months July/August
default to semester 1. -/
def getSemesterForDate (month : ℕ) : ℕ :=
  if 9 ≤ month ∨ month ≤ 1 then 1
  else if 2 ≤ month ∧ month ≤ 6 then 2
  else 1

/-- The academic-year string format of claim C9: `"{Y}-{Y+1}"`. -/
def academicYearString (y : ℤ) : String := toString y ++ "-" ++ toString (y + 1)

/-! ## Claim C1: student listing filters are forced to the caller's own id -/

/-- C1: for a student caller with a resolved profile, the grades and
attendance listing middleware always succeeds with the query's `studentId`
replaced by the caller's own student-profile id, so the where clause the
controller passes to storage filters on exactly that id — whatever
`studentId` the caller supplied in either query. -/
theorem student_listing_filter_forced (u : AuthUser) (gq : GradesQuery)
    (aq : AttendanceQuery) (pid : String) (hrole : u.role = Role.student)
    (hpid : u.studentProfileId = some pid) (hne : pid ≠ "") :
    (gradesListMiddleware u gq).map (fun q => (getAllGradesWhere u q).studentId) =
      Except.ok (some pid) ∧
    (attendanceListMiddleware u aq).map (fun q => (getAllAttendanceWhere u q).studentId) =
      Except.ok (some pid) := by
  simp [gradesListMiddleware, attendanceListMiddleware, hrole, hpid, Except.map,
    getAllGradesWhere, getAllAttendanceWhere, truthyStr, hne]

/-- Concrete instance of the C1 theorem: a student with profile id `s-1`
supplying `studentId = s-2` in both listing queries still gets a storage
filter on `s-1`. -/
theorem student_listing_filter_forced_witness :
    (gradesListMiddleware ⟨Role.student, some "s-1", none, none⟩
        ⟨some "s-2", none, none, none, none, none⟩).map
      (fun q => (getAllGradesWhere ⟨Role.student, some "s-1", none, none⟩ q).studentId) =
      Except.ok (some "s-1") ∧
    (attendanceListMiddleware ⟨Role.student, some "s-1", none, none⟩
        ⟨some "s-2", none, none, none, none, none, none⟩).map
      (fun q => (getAllAttendanceWhere ⟨Role.student, some "s-1", none, none⟩ q).studentId) =
      Except.ok (some "s-1") :=
  student_listing_filter_forced ⟨Role.student, some "s-1", none, none⟩
    ⟨some "s-2", none, none, none, none, none⟩
    ⟨some "s-2", none, none, none, none, none, none⟩ "s-1" rfl rfl (by decide)

/-! ## Claim C2: own-profile detail gates -/

/-- C2 counterexample: a parent (role ≠ admin) requesting another user's
own-profile-scoped endpoints with a path id different from the caller's own
profile id is let through to the handler, not denied with 403, on both the
teacher and the student detail routes. -/
theorem own_profile_gate_parent_passes :
    teacherDetailGate ⟨Role.parent, none, none, some "g-1"⟩ "t-9" = Gate.allow ∧
    studentDetailGate ⟨Role.parent, none, none, some "g-1"⟩ "s-9" = Gate.allow ∧
    "g-1" ≠ "t-9" ∧ "g-1" ≠ "s-9" := by
  refine ⟨rfl, rfl, by decide, by decide⟩

/-- C2 (amended): the own-profile gates only constrain the role matching
the endpoint's profile kind — a teacher passes the teacher detail gate iff
the path id is the teacher's own profile id, a student passes the student
detail gate iff the path id is the student's own profile id, and every
other role (admin, but also parent and the cross-kind roles) is passed
through to the handler unconditionally. -/
theorem own_profile_gates_characterization (u : AuthUser) (paramId : String) :
    (teacherDetailGate u paramId = Gate.allow ↔
      (u.role ≠ Role.teacher ∨ u.teacherProfileId = some paramId)) ∧
    (studentDetailGate u paramId = Gate.allow ↔
      (u.role ≠ Role.student ∨ u.studentProfileId = some paramId)) := by
  obtain ⟨role, sp, tp, gp⟩ := u
  constructor
  · cases role <;> cases tp <;> simp [teacherDetailGate]
  · cases role <;> cases sp <;> simp [studentDetailGate]

/-! ## Claim C3: grade update authorization -/

lemma find?_map_applyGradeUpdate (b : GradeBody) (id : String) (store : List GradeRec)
    (g : GradeRec) (h : store.find? (fun r => r.id == id) = some g) :
    (store.map (fun r => if r.id == id then applyGradeUpdate b r else r)).find?
      (fun r => r.id == id) = some (applyGradeUpdate b g) := by
  induction store with
  | nil => simp at h
  | cons r rs ih =>
    by_cases hr : (r.id == id) = true
    · simp only [List.find?, hr] at h
      injection h with h2
      subst h2
      have hid : ((applyGradeUpdate b r).id == id) = true := hr
      simp only [List.map_cons, if_pos hr, List.find?, hid]
    · rw [Bool.not_eq_true] at hr
      simp only [List.find?, hr] at h
      simp only [List.map_cons, hr, Bool.false_eq_true, if_false, List.find?]
      exact ih h

/-- C3: for a stored grade owned by teacher `tA`, an update attempt by a
teacher caller whose own profile id `tB` differs returns 403 with the store
untouched; the same update by an admin returns 200 with the grade row
overwritten by the body (so its value becomes the body's value); and an
update of an id that matches no stored grade returns 404. -/
theorem grade_update_authorization (u adminU : AuthUser) (id : String) (b : GradeBody)
    (store : List GradeRec) (g : GradeRec) (tA tB : String)
    (hfind : store.find? (fun r => r.id == id) = some g)
    (hrole : u.role = Role.teacher) (hown : g.teacherId = some tA)
    (hu : u.teacherProfileId = some tB) (hne : tA ≠ tB)
    (hadmin : adminU.role = Role.admin) :
    updateGrade u id b store = ⟨403, store⟩ ∧
    (updateGrade adminU id b store).status = 200 ∧
    ((updateGrade adminU id b store).store.find? (fun r => r.id == id)) =
      some (applyGradeUpdate b g) ∧
    (applyGradeUpdate b g).gradeValue = b.gradeValue ∧
    (∀ store2 : List GradeRec, store2.find? (fun r => r.id == id) = none →
      updateGrade u id b store2 = ⟨404, store2⟩) := by
  have hno : ¬(adminU.role = Role.teacher ∧
      sameOwner g.teacherId adminU.teacherProfileId = false) := by
    rintro ⟨h, -⟩
    rw [hadmin] at h
    exact Role.noConfusion h
  refine ⟨?_, ?_, ?_, rfl, ?_⟩
  · unfold updateGrade
    rw [hfind]
    dsimp only
    rw [if_pos ⟨hrole, by rw [hown, hu]; simp [sameOwner, hne]⟩]
  · unfold updateGrade
    rw [hfind]
    dsimp only
    rw [if_neg hno]
  · unfold updateGrade
    rw [hfind]
    dsimp only
    rw [if_neg hno]
    exact find?_map_applyGradeUpdate b id store g hfind
  · intro store2 h2
    unfold updateGrade
    rw [h2]

/-- Concrete instance of the C3 theorem: teacher `t-B` cannot update the
grade owned by `t-A` (403, store unchanged), while an admin updating the
same grade gets 200 and the stored value becomes the body's 97. -/
theorem grade_update_authorization_witness :
    updateGrade ⟨Role.teacher, none, some "t-B", none⟩ "g-1"
        ⟨"s-1", "sub-1", "c-1", 97, "exam", 1, "2024-2025", none, none, none⟩
        [⟨"g-1", "s-1", "sub-1", "c-1", some "t-A", 95, "exam", 1, "2024-2025", none, none⟩] =
      ⟨403, [⟨"g-1", "s-1", "sub-1", "c-1", some "t-A", 95, "exam", 1, "2024-2025", none, none⟩]⟩ ∧
    (updateGrade ⟨Role.admin, none, none, none⟩ "g-1"
        ⟨"s-1", "sub-1", "c-1", 97, "exam", 1, "2024-2025", none, none, none⟩
        [⟨"g-1", "s-1", "sub-1", "c-1", some "t-A", 95, "exam", 1, "2024-2025", none, none⟩]).status =
      200 ∧
    updateGrade ⟨Role.teacher, none, some "t-B", none⟩ "g-404"
        ⟨"s-1", "sub-1", "c-1", 97, "exam", 1, "2024-2025", none, none, none⟩ [] = ⟨404, []⟩ := by
  have h := grade_update_authorization ⟨Role.teacher, none, some "t-B", none⟩
    ⟨Role.admin, none, none, none⟩ "g-1"
    ⟨"s-1", "sub-1", "c-1", 97, "exam", 1, "2024-2025", none, none, none⟩
    [⟨"g-1", "s-1", "sub-1", "c-1", some "t-A", 95, "exam", 1, "2024-2025", none, none⟩]
    ⟨"g-1", "s-1", "sub-1", "c-1", some "t-A", 95, "exam", 1, "2024-2025", none, none⟩
    "t-A" "t-B" rfl rfl rfl rfl (by decide) rfl
  have h404 := grade_update_authorization ⟨Role.teacher, none, some "t-B", none⟩
    ⟨Role.admin, none, none, none⟩ "g-404"
    ⟨"s-1", "sub-1", "c-1", 97, "exam", 1, "2024-2025", none, none, none⟩
    [⟨"g-404", "s-1", "sub-1", "c-1", some "t-A", 95, "exam", 1, "2024-2025", none, none⟩]
    ⟨"g-404", "s-1", "sub-1", "c-1", some "t-A", 95, "exam", 1, "2024-2025", none, none⟩
    "t-A" "t-B" rfl rfl rfl rfl (by decide) rfl
  exact ⟨h.1, h.2.1, h404.2.2.2.2 [] rfl⟩

/-! ## Claim C4: attendance marking is an upsert on (studentId, classId, date) -/

lemma attKey_applyAttUpdate (b : AttBody) (r : AttRec) :
    attKey (applyAttUpdate b r) = bodyKey b := rfl

lemma attKey_createAttRec (b : AttBody) (n : Nat) :
    attKey (createAttRec b n) = bodyKey b := rfl

lemma bodyKey_attendanceData (u : AuthUser) (b : AttBody) :
    bodyKey (attendanceData u b) = bodyKey b := by
  unfold attendanceData
  split <;> rfl

lemma status_attendanceData (u : AuthUser) (b : AttBody) :
    (attendanceData u b).status = b.status := by
  unfold attendanceData
  split <;> rfl

lemma keyMatch_iff (r : AttRec) (b : AttBody) :
    keyMatch r b = true ↔ attKey r = bodyKey b := by
  simp [keyMatch, attKey, bodyKey, Prod.ext_iff, and_assoc]

lemma countKey_cons (r : AttRec) (rs : List AttRec) (k : AttKey) :
    countKey (r :: rs) k = (if attKey r == k then 1 else 0) + countKey rs k := by
  by_cases h : (attKey r == k) = true
  · simp [countKey, List.filter_cons, h, Nat.add_comm]
  · rw [Bool.not_eq_true] at h
    simp [countKey, List.filter_cons, h]

lemma countKey_append_single (store : List AttRec) (c : AttRec) (k : AttKey) :
    countKey (store ++ [c]) k = countKey store k + (if attKey c == k then 1 else 0) := by
  by_cases h : (attKey c == k) = true
  · simp [countKey, List.filter_append, List.filter_cons, h]
  · rw [Bool.not_eq_true] at h
    simp [countKey, List.filter_append, List.filter_cons, h]

lemma countKey_updateFirstMatch (d : AttBody) (store : List AttRec) (k : AttKey) :
    countKey (updateFirstMatch d store) k = countKey store k := by
  induction store with
  | nil => rfl
  | cons r rs ih =>
    by_cases hm : keyMatch r d = true
    · have hk : attKey r = bodyKey d := (keyMatch_iff r d).mp hm
      simp only [updateFirstMatch, hm, if_true, countKey_cons, attKey_applyAttUpdate, hk]
    · rw [Bool.not_eq_true] at hm
      simp only [updateFirstMatch, hm, Bool.false_eq_true, if_false, countKey_cons, ih]

lemma countKey_zero_iff (store : List AttRec) (d : AttBody) :
    countKey store (bodyKey d) = 0 ↔ store.find? (fun r => keyMatch r d) = none := by
  rw [countKey, List.length_eq_zero, List.filter_eq_nil_iff, List.find?_eq_none]
  constructor
  · intro h r hr hkm
    exact h r hr (by simp [(keyMatch_iff r d).mp hkm])
  · intro h r hr hbeq
    have : attKey r = bodyKey d := by simpa using hbeq
    exact h r hr ((keyMatch_iff r d).mpr this)

lemma updateFirstMatch_append_of_none (d : AttBody) (store : List AttRec) (c : AttRec)
    (hnone : ∀ r ∈ store, ¬ keyMatch r d) (hc : keyMatch c d = true) :
    updateFirstMatch d (store ++ [c]) = store ++ [applyAttUpdate d c] := by
  induction store with
  | nil => simp [updateFirstMatch, hc]
  | cons r rs ih =>
    have hr : keyMatch r d = false := by
      rw [← Bool.not_eq_true]
      exact hnone r (List.mem_cons_self r rs)
    simp only [List.cons_append, updateFirstMatch, hr, Bool.false_eq_true, if_false,
      List.cons.injEq, true_and]
    exact ih (fun x hx => hnone x (List.mem_cons_of_mem r hx))

/-- C4: marking attendance is an upsert keyed on (studentId, classId, date).
Starting from a store with no record for the key, the first mark creates
exactly one record (201); a second mark for the same key updates that
record in place (200), leaving exactly one stored record for the key, and
that record carries the latest submitted values (its status is the second
payload's status); and for every store with at most one record per key,
marking never produces a duplicate for any key. -/
theorem attendance_mark_upsert (u : AuthUser) (b1 b2 : AttBody) (store : List AttRec)
    (f1 f2 : Nat) (k : AttKey) (hk1 : bodyKey b1 = k) (hk2 : bodyKey b2 = k)
    (hnew : countKey store k = 0) :
    markAttendance u b1 f1 store =
      (201, store ++ [createAttRec (attendanceData u b1) f1]) ∧
    (markAttendance u b2 f2 (store ++ [createAttRec (attendanceData u b1) f1])).1 = 200 ∧
    ((markAttendance u b2 f2 (store ++ [createAttRec (attendanceData u b1) f1])).2).filter
        (fun r => attKey r == k) =
      [applyAttUpdate (attendanceData u b2) (createAttRec (attendanceData u b1) f1)] ∧
    (applyAttUpdate (attendanceData u b2) (createAttRec (attendanceData u b1) f1)).status =
      b2.status ∧
    (∀ (b : AttBody) (f : Nat) (st : List AttRec) (k2 : AttKey), countKey st k2 ≤ 1 →
      countKey (markAttendance u b f st).2 k2 ≤ 1) := by
  have hbk1 : bodyKey (attendanceData u b1) = k := by rw [bodyKey_attendanceData, hk1]
  have hbk2 : bodyKey (attendanceData u b2) = k := by rw [bodyKey_attendanceData, hk2]
  have hnew1 : countKey store (bodyKey (attendanceData u b1)) = 0 := by rwa [hbk1]
  have hnew2 : countKey store (bodyKey (attendanceData u b2)) = 0 := by rwa [hbk2]
  have hfind1 : store.find? (fun r => keyMatch r (attendanceData u b1)) = none :=
    (countKey_zero_iff store (attendanceData u b1)).mp hnew1
  have hfind2 : store.find? (fun r => keyMatch r (attendanceData u b2)) = none :=
    (countKey_zero_iff store (attendanceData u b2)).mp hnew2
  have hc1 : keyMatch (createAttRec (attendanceData u b1) f1) (attendanceData u b2) = true :=
    (keyMatch_iff _ _).mpr (by rw [attKey_createAttRec, hbk1, hbk2])
  have hmark1 : markAttendance u b1 f1 store =
      (201, store ++ [createAttRec (attendanceData u b1) f1]) := by
    unfold markAttendance
    dsimp only
    rw [hfind1]
  have hfindall : (store ++ [createAttRec (attendanceData u b1) f1]).find?
      (fun r => keyMatch r (attendanceData u b2)) =
      some (createAttRec (attendanceData u b1) f1) := by
    rw [List.find?_append, hfind2]
    simp [List.find?, hc1]
  have hupd : updateFirstMatch (attendanceData u b2)
      (store ++ [createAttRec (attendanceData u b1) f1]) =
      store ++ [applyAttUpdate (attendanceData u b2) (createAttRec (attendanceData u b1) f1)] := by
    refine updateFirstMatch_append_of_none _ _ _ ?_ hc1
    intro r hr
    exact (List.find?_eq_none.mp hfind2) r hr
  have hmark2 : markAttendance u b2 f2 (store ++ [createAttRec (attendanceData u b1) f1]) =
      (200, store ++
        [applyAttUpdate (attendanceData u b2) (createAttRec (attendanceData u b1) f1)]) := by
    unfold markAttendance
    dsimp only
    rw [hfindall, hupd]
  have hfilter0 : store.filter (fun r => attKey r == k) = [] := by
    have := hnew
    rw [countKey, List.length_eq_zero] at this
    exact this
  refine ⟨hmark1, by rw [hmark2], ?_, ?_, ?_⟩
  · rw [hmark2]
    have hx : attKey (applyAttUpdate (attendanceData u b2)
        (createAttRec (attendanceData u b1) f1)) = k := by
      rw [attKey_applyAttUpdate, hbk2]
    simp [List.filter_append, hfilter0, List.filter_cons, hx]
  · show (attendanceData u b2).status = b2.status
    exact status_attendanceData u b2
  · intro b f st k2 hinv
    unfold markAttendance
    dsimp only
    cases hfind : st.find? (fun r => keyMatch r (attendanceData u b)) with
    | some r =>
        dsimp only
        rw [countKey_updateFirstMatch]
        exact hinv
    | none =>
        dsimp only
        rw [countKey_append_single]
        by_cases hkk : bodyKey (attendanceData u b) = k2
        · have : countKey st k2 = 0 := by
            rw [← hkk]
            exact (countKey_zero_iff st (attendanceData u b)).mpr hfind
          rw [this]
          split <;> omega
        · have : (attKey (createAttRec (attendanceData u b) f) == k2) = false := by
            rw [attKey_createAttRec]
            simpa using hkk
          rw [this]
          simpa using hinv

/-- Concrete instance of the C4 theorem: marking student `s-1` in class
`c-1` on `2025-01-10` as absent and then as present leaves exactly one
stored record for that key, whose status is `present`. -/
theorem attendance_mark_upsert_witness :
    markAttendance ⟨Role.admin, none, none, none⟩
        ⟨"s-1", "c-1", none, "2025-01-10", "absent", none, none, none, none, none⟩ 0 [] =
      (201, [⟨0, "s-1", "c-1", none, "2025-01-10", none, "absent", none, none, none, none⟩]) ∧
    (markAttendance ⟨Role.admin, none, none, none⟩
        ⟨"s-1", "c-1", none, "2025-01-10", "present", none, none, none, none, none⟩ 1
        [⟨0, "s-1", "c-1", none, "2025-01-10", none, "absent", none, none, none, none⟩]).1 =
      200 := by
  have h := attendance_mark_upsert ⟨Role.admin, none, none, none⟩
    ⟨"s-1", "c-1", none, "2025-01-10", "absent", none, none, none, none, none⟩
    ⟨"s-1", "c-1", none, "2025-01-10", "present", none, none, none, none, none⟩
    [] 0 1 ("s-1", "c-1", "2025-01-10") rfl rfl rfl
  exact ⟨h.1, h.2.1⟩

/-! ## Claim C5: batch attendance marking under partial failure -/

lemma batchLoop_cons (valid : List String) (u : AuthUser) (b : AttBody)
    (rest : List AttBody) (fresh : Nat) (store : List AttRec) :
    batchLoop valid u (b :: rest) fresh store =
      match store.find? (fun r => keyMatch r (attendanceData u b)) with
      | some _ => batchLoop valid u rest fresh (updateFirstMatch (attendanceData u b) store)
      | none =>
          if (attendanceData u b).studentId ∈ valid
          then batchLoop valid u rest (fresh + 1)
            (store ++ [createAttRec (attendanceData u b) fresh])
          else (500, store) := rfl

lemma upsertAll_cons (u : AuthUser) (b : AttBody) (rest : List AttBody)
    (fresh : Nat) (store : List AttRec) :
    upsertAll u (b :: rest) fresh store =
      match store.find? (fun r => keyMatch r (attendanceData u b)) with
      | some _ => upsertAll u rest fresh (updateFirstMatch (attendanceData u b) store)
      | none => upsertAll u rest (fresh + 1)
          (store ++ [createAttRec (attendanceData u b) fresh]) := rfl

lemma batchLoop_append_of_valid (valid : List String) (u : AuthUser) (pre : List AttBody)
    (bodies : List AttBody) (fresh : Nat) (store : List AttRec)
    (hpre : ∀ b ∈ pre, (attendanceData u b).studentId ∈ valid) :
    batchLoop valid u (pre ++ bodies) fresh store =
      batchLoop valid u bodies (upsertAll u pre fresh store).1
        (upsertAll u pre fresh store).2 := by
  induction pre generalizing fresh store with
  | nil => rfl
  | cons b pre ih =>
    rw [List.cons_append, batchLoop_cons, upsertAll_cons]
    cases hfind : store.find? (fun r => keyMatch r (attendanceData u b)) with
    | some r =>
        dsimp only
        exact ih fresh (updateFirstMatch (attendanceData u b) store)
          (fun x hx => hpre x (List.mem_cons_of_mem b hx))
    | none =>
        dsimp only
        rw [if_pos (hpre b (List.mem_cons_self b pre))]
        exact ih (fresh + 1) (store ++ [createAttRec (attendanceData u b) fresh])
          (fun x hx => hpre x (List.mem_cons_of_mem b hx))

/-- C5 counterexample: batch-marking three records where the second
references a nonexistent student commits record 1, then answers with a
single blanket 500 failure — record 3 is never processed (no stored record
for its key) and no per-item success/failure list exists in the response. -/
theorem batch_attendance_blanket_failure :
    batchMarkAttendance ["s-1", "s-3"] ⟨Role.admin, none, none, none⟩
        [⟨"s-1", "c-1", none, "2025-01-10", "present", none, none, none, none, none⟩,
         ⟨"s-2", "c-1", none, "2025-01-10", "present", none, none, none, none, none⟩,
         ⟨"s-3", "c-1", none, "2025-01-10", "present", none, none, none, none, none⟩] 0 [] =
      (500, [⟨0, "s-1", "c-1", none, "2025-01-10", none, "present", none, none, none, none⟩]) ∧
    countKey [⟨0, "s-1", "c-1", none, "2025-01-10", none, "present", none, none, none, none⟩]
      ("s-3", "c-1", "2025-01-10") = 0 := by
  constructor <;> decide

/-- C5 (amended): when the sequential batch loop hits a record whose
creation the store rejects (unknown student id), the records upserted
before the failure remain committed, the records after it are never
processed, and the caller receives a single blanket 500 response carrying
no per-item result list. -/
theorem batch_attendance_halts_on_failure (valid : List String) (u : AuthUser)
    (pre post : List AttBody) (bad : AttBody) (fresh : Nat) (store : List AttRec)
    (hpre : ∀ b ∈ pre, (attendanceData u b).studentId ∈ valid)
    (hbadNew : ((upsertAll u pre fresh store).2).find?
        (fun r => keyMatch r (attendanceData u bad)) = none)
    (hbadInvalid : (attendanceData u bad).studentId ∉ valid) :
    batchMarkAttendance valid u (pre ++ bad :: post) fresh store =
      (500, (upsertAll u pre fresh store).2) := by
  unfold batchMarkAttendance
  rw [if_neg (show ¬((pre ++ bad :: post).isEmpty = true) by simp)]
  rw [batchLoop_append_of_valid valid u pre (bad :: post) fresh store hpre]
  rw [batchLoop_cons, hbadNew]
  dsimp only
  rw [if_neg hbadInvalid]

/-- Concrete instance of the C5 amended theorem: with students `s-1` and
`s-3` existing and `s-2` unknown, the three-record batch commits only the
first record and returns 500. -/
theorem batch_attendance_halts_on_failure_witness :
    batchMarkAttendance ["s-1", "s-3"] ⟨Role.admin, none, none, none⟩
        [⟨"s-1", "c-2", none, "2025-02-01", "late", none, none, none, none, none⟩,
         ⟨"s-2", "c-2", none, "2025-02-01", "late", none, none, none, none, none⟩,
         ⟨"s-3", "c-2", none, "2025-02-01", "late", none, none, none, none, none⟩] 0 [] =
      (500, [⟨0, "s-1", "c-2", none, "2025-02-01", none, "late", none, none, none, none⟩]) := by
  have h := batch_attendance_halts_on_failure ["s-1", "s-3"] ⟨Role.admin, none, none, none⟩
    [⟨"s-1", "c-2", none, "2025-02-01", "late", none, none, none, none, none⟩]
    [⟨"s-3", "c-2", none, "2025-02-01", "late", none, none, none, none, none⟩]
    ⟨"s-2", "c-2", none, "2025-02-01", "late", none, none, none, none, none⟩ 0 []
    (by decide) (by decide) (by decide)
  exact h

/-! ## Claim C6: grade distribution buckets partition the grades -/

lemma bucket_partition (g : ℚ) :
    ((if 85 ≤ g then 1 else 0) + (if 70 ≤ g ∧ g < 85 then 1 else 0) +
     (if 60 ≤ g ∧ g < 70 then 1 else 0) + (if g < 60 then 1 else 0) : ℕ) = 1 := by
  rcases lt_or_le g 60 with h | h
  · have h1 : ¬ 85 ≤ g := by linarith
    have h2 : ¬ (70 ≤ g ∧ g < 85) := fun hc => by linarith [hc.1]
    have h3 : ¬ (60 ≤ g ∧ g < 70) := fun hc => by linarith [hc.1]
    simp [h1, h2, h3, h]
  · rcases lt_or_le g 70 with h7 | h7
    · have h1 : ¬ 85 ≤ g := by linarith
      have h2 : ¬ (70 ≤ g ∧ g < 85) := fun hc => by linarith [hc.1]
      have h4 : ¬ g < 60 := by linarith
      simp [h1, h2, h4, h, h7]
    · rcases lt_or_le g 85 with h8 | h8
      · have h1 : ¬ 85 ≤ g := by linarith
        have h3 : ¬ (60 ≤ g ∧ g < 70) := fun hc => by linarith [hc.2]
        have h4 : ¬ g < 60 := by linarith
        simp [h1, h3, h4, h7, h8]
      · have h2 : ¬ (70 ≤ g ∧ g < 85) := fun hc => by linarith [hc.2]
        have h3 : ¬ (60 ≤ g ∧ g < 70) := fun hc => by linarith [hc.2]
        have h4 : ¬ g < 60 := by linarith
        simp [h2, h3, h4, h8]

lemma filterLength_cons (p : ℚ → Bool) (g : ℚ) (l : List ℚ) :
    ((g :: l).filter p).length = (if p g then 1 else 0) + (l.filter p).length := by
  cases h : p g <;> simp [List.filter_cons, h, Nat.add_comm]

/-- C6: for every grade set within [0,100], the four distribution buckets
of `getGradeStatistics` are pairwise disjoint and exhaustive (every grade
falls in exactly one bucket), hence
excellent + good + satisfactory + unsatisfactory equals the total count. -/
theorem grade_distribution_partition (gradeValues : List ℚ)
    (hrange : ∀ g ∈ gradeValues, 0 ≤ g ∧ g ≤ 100) :
    (gradeDistribution gradeValues).1 + (gradeDistribution gradeValues).2.1 +
      (gradeDistribution gradeValues).2.2.1 + (gradeDistribution gradeValues).2.2.2 =
      gradeValues.length ∧
    ∀ g ∈ gradeValues,
      ((if 85 ≤ g then 1 else 0) + (if 70 ≤ g ∧ g < 85 then 1 else 0) +
       (if 60 ≤ g ∧ g < 70 then 1 else 0) + (if g < 60 then 1 else 0) : ℕ) = 1 := by
  refine ⟨?_, fun g _ => bucket_partition g⟩
  induction gradeValues with
  | nil => rfl
  | cons g l ih =>
    have ih2 := ih (fun x hx => hrange x (List.mem_cons_of_mem g hx))
    unfold gradeDistribution at ih2 ⊢
    dsimp only at ih2 ⊢
    rw [filterLength_cons, filterLength_cons, filterLength_cons, filterLength_cons]
    have e1 : (if (decide (85 ≤ g)) = true then (1 : ℕ) else 0) =
        if 85 ≤ g then 1 else 0 := by simp
    have e2 : (if (decide (70 ≤ g) && decide (g < 85)) = true then (1 : ℕ) else 0) =
        if 70 ≤ g ∧ g < 85 then 1 else 0 := by
      simp [Bool.and_eq_true, decide_eq_true_eq]
    have e3 : (if (decide (60 ≤ g) && decide (g < 70)) = true then (1 : ℕ) else 0) =
        if 60 ≤ g ∧ g < 70 then 1 else 0 := by
      simp [Bool.and_eq_true, decide_eq_true_eq]
    have e4 : (if (decide (g < 60)) = true then (1 : ℕ) else 0) =
        if g < 60 then 1 else 0 := by simp
    rw [e1, e2, e3, e4]
    have hone := bucket_partition g
    simp only [List.length_cons]
    omega

/-- Concrete instance of the C6 theorem on the grade set
[90, 72, 65, 30, 85, 100]: 2+2+1+1 = 6. -/
theorem grade_distribution_partition_witness :
    (gradeDistribution [90, 72, 65, 30, 85, 100]).1 +
      (gradeDistribution [90, 72, 65, 30, 85, 100]).2.1 +
      (gradeDistribution [90, 72, 65, 30, 85, 100]).2.2.1 +
      (gradeDistribution [90, 72, 65, 30, 85, 100]).2.2.2 =
      ([90, 72, 65, 30, 85, 100] : List ℚ).length :=
  (grade_distribution_partition [90, 72, 65, 30, 85, 100]
    (by intro g hg; fin_cases hg <;> norm_num)).1

/-! ## Claim C7: attendance rate formula and empty-set safety -/

lemma jsRound_zero : jsRound 0 = 0 := by
  unfold jsRound
  rw [zero_add, Int.floor_eq_zero_iff]
  constructor <;> norm_num

/-- C7: the rate of `calculateAttendanceRate` always equals
`round(100 * (present + late) / total)` over its own counts (late counts
as attended), the empty record set yields the all-zero statistics (rate
exactly 0, no division error), and the per-student report rate of
`getAttendanceReport` satisfies the same formula for all counts. -/
theorem attendance_rate_formula (records : List AttRec) :
    (calculateAttendanceRate records).rate =
      jsRound (100 * (((calculateAttendanceRate records).present : ℚ) +
          ((calculateAttendanceRate records).late : ℚ)) /
        ((calculateAttendanceRate records).total : ℚ)) ∧
    calculateAttendanceRate [] = ⟨0, 0, 0, 0, 0, 0⟩ ∧
    ∀ present late total : Nat, reportAttendanceRate present late total =
      jsRound (100 * ((present : ℚ) + (late : ℚ)) / (total : ℚ)) := by
  refine ⟨?_, rfl, ?_⟩
  · by_cases h : records.isEmpty
    · unfold calculateAttendanceRate
      rw [if_pos h]
      dsimp only
      rw [show ((100 : ℚ) * (((0 : Nat) : ℚ) + ((0 : Nat) : ℚ)) / ((0 : Nat) : ℚ)) = 0 by
        norm_num]
      exact jsRound_zero.symm
    · unfold calculateAttendanceRate
      rw [if_neg h]
      dsimp only
      congr 1
      push_cast
      ring
  · intro p l t
    unfold reportAttendanceRate
    by_cases ht : 0 < t
    · rw [if_pos ht]
      congr 1
      ring
    · rw [if_neg ht]
      have h0 : t = 0 := by omega
      subst h0
      rw [show ((100 : ℚ) * ((p : ℚ) + (l : ℚ)) / ((0 : Nat) : ℚ)) = 0 by norm_num]
      exact jsRound_zero.symm

/-! ## Claim C8: weighted GPA -/

lemma foldl_add_map (f : GradeWV → ℚ) (l : List GradeWV) :
    ∀ init : ℚ, l.foldl (fun s g => s + f g) init = init + (l.map f).sum := by
  induction l with
  | nil => intro init; simp
  | cons g l ih =>
      intro init
      rw [List.foldl_cons, ih, List.map_cons, List.sum_cons]
      ring

/-- C8 counterexample: the grade list [{value 80, weight 1}, {value 90,
weight 0}] — reachable, since the Joi schema admits weight 0 — yields 85
from the source's `calculateGPA` (the `weight || 1` fallback treats 0 as
absent), but 80 from the claim's formula with the supplied weights. -/
theorem weighted_gpa_zero_weight_counterexample :
    calculateGPA [⟨80, some 1⟩, ⟨90, some 0⟩] true = 85 ∧
    claimWeightedGPA [⟨80, some 1⟩, ⟨90, some 0⟩] = 80 ∧
    calculateGPA [⟨80, some 1⟩, ⟨90, some 0⟩] true ≠
      claimWeightedGPA [⟨80, some 1⟩, ⟨90, some 0⟩] := by
  have h1 : calculateGPA [⟨80, some 1⟩, ⟨90, some 0⟩] true = 85 := by
    norm_num [calculateGPA, round2, jsRound, jsWeight, List.foldl]
  have h2 : claimWeightedGPA [⟨80, some 1⟩, ⟨90, some 0⟩] = 80 := by
    norm_num [claimWeightedGPA, round2, jsRound]
  refine ⟨h1, h2, ?_⟩
  rw [h1, h2]
  norm_num

/-- C8 (amended): the `weight || 1` fallback defaults the weight to 1 both
when it is absent and when it is 0; under positive supplied weights the
claim's formula holds: for a non-empty grade list the GPA is
`sum(value * weight) / sum(weight)` (weight defaulting to 1 when absent)
rounded to two decimals, the empty list yields 0, and the claim's example
[{80,1},{90,0.5}] yields 83.33. -/
theorem weighted_gpa_formula (grades : List GradeWV) (hne : grades ≠ [])
    (hw : ∀ g ∈ grades, ∀ w : ℚ, g.weight = some w → 0 < w) :
    calculateGPA grades true =
      round2 (((grades.map (fun g => g.gradeValue * g.weight.getD 1)).sum) /
              ((grades.map (fun g => g.weight.getD 1)).sum)) ∧
    calculateGPA [] true = 0 ∧
    calculateGPA [⟨80, some 1⟩, ⟨90, some (1/2)⟩] true = 8333 / 100 := by
  refine ⟨?_, rfl, by norm_num [calculateGPA, round2, jsRound, jsWeight, List.foldl]⟩
  have hjs : ∀ g ∈ grades, jsWeight g.weight = g.weight.getD 1 := by
    intro g hg
    cases hgw : g.weight with
    | none => rfl
    | some w =>
        have hwpos := hw g hg w hgw
        simp [jsWeight, ne_of_gt hwpos]
  have hem : grades.isEmpty = false := by
    cases grades with
    | nil => exact absurd rfl hne
    | cons a l => rfl
  have hmap1 : grades.map (fun g => g.gradeValue * jsWeight g.weight) =
      grades.map (fun g => g.gradeValue * g.weight.getD 1) :=
    List.map_congr_left (fun g hg => by rw [hjs g hg])
  have hmap2 : grades.map (fun g => jsWeight g.weight) =
      grades.map (fun g => g.weight.getD 1) :=
    List.map_congr_left (fun g hg => hjs g hg)
  have hpos : 0 < (grades.map (fun g => g.weight.getD 1)).sum := by
    apply List.sum_pos
    · intro x hx
      obtain ⟨g, hg, rfl⟩ := List.mem_map.mp hx
      cases hgw : g.weight with
      | none => norm_num
      | some w => simpa [hgw] using hw g hg w hgw
    · simpa using hne
  unfold calculateGPA
  rw [hem]
  rw [if_neg (show ¬(false = true) by simp), if_pos rfl]
  dsimp only
  rw [foldl_add_map, foldl_add_map, zero_add, zero_add, hmap1, hmap2, if_pos hpos]

/-- Concrete instance of the C8 amended theorem: the claim's own example
list evaluates to 83.33. -/
theorem weighted_gpa_formula_witness :
    calculateGPA [⟨80, some 1⟩, ⟨90, some (1/2)⟩] true = 8333 / 100 :=
  (weighted_gpa_formula [⟨80, some 1⟩, ⟨90, some (1/2)⟩] (by simp)
    (by
      intro g hg w hgw
      simp only [List.mem_cons, List.mem_singleton] at hg
      rcases hg with rfl | rfl | h
      · rw [Option.some_inj] at hgw
        rw [← hgw]
        norm_num
      · rw [Option.some_inj] at hgw
        rw [← hgw]
        norm_num
      · exact absurd h (List.not_mem_nil g))).2.2

/-! ## Claim C9: academic year and semester derivation -/

/-- C9: for every date (year, month 1–12) the derived academic year is the
string `"{Y}-{Y+1}"` with Y the calendar year when month ≥ 9 and the year
before otherwise, and the semester is 1 on {9,10,11,12,1}, 2 on {2,…,6}
and 1 on the summer months {7,8}; in particular 2025-03-15 lies in
"2024-2025" semester 2 and 2025-10-01 in "2025-2026" semester 1. -/
theorem academic_calendar_derivation (y : ℤ) (m : ℕ) (h1 : 1 ≤ m) (h2 : m ≤ 12) :
    getAcademicYearForDate y m = academicYearString (if 9 ≤ m then y else y - 1) ∧
    getSemesterForDate m =
      (if m ∈ ({1, 9, 10, 11, 12} : Finset ℕ) then 1
       else if m ∈ ({2, 3, 4, 5, 6} : Finset ℕ) then 2 else 1) ∧
    getAcademicYearForDate 2025 3 = "2024-2025" ∧ getSemesterForDate 3 = 2 ∧
    getAcademicYearForDate 2025 10 = "2025-2026" ∧ getSemesterForDate 10 = 1 := by
  refine ⟨?_, ?_, by decide, by decide, by decide, by decide⟩
  · by_cases h : 9 ≤ m
    · simp [getAcademicYearForDate, academicYearString, h]
    · have hy : y - 1 + 1 = y := by omega
      simp [getAcademicYearForDate, academicYearString, h, hy]
  · interval_cases m <;> decide

/-- Concrete instance of the C9 theorem at the two dates named in the
claim. -/
theorem academic_calendar_derivation_witness :
    getAcademicYearForDate 2025 3 = "2024-2025" ∧ getSemesterForDate 3 = 2 ∧
    getAcademicYearForDate 2025 10 = "2025-2026" ∧ getSemesterForDate 10 = 1 := by
  have h := academic_calendar_derivation 2025 3 (by omega) (by omega)
  exact ⟨h.2.2.1, h.2.2.2.1, h.2.2.2.2.1, h.2.2.2.2.2⟩

/-! ## Claim C10: the stored teacherId is forced to the caller's own profile id -/

/-- C10: for a teacher caller with profile id `tid`, single grade creation,
batch grade creation and attendance marking all store `teacherId = tid`:
the payload the controller hands to the store carries `tid` whatever
`teacherId` the request body supplied, both on the create path and on the
update path of the attendance upsert, and two bodies differing only in
their `teacherId` produce identical stored payloads. -/
theorem stored_teacherId_forced (u : AuthUser) (tid : String) (gb : GradeBody)
    (gbs : List GradeBody) (ab : AttBody) (r : AttRec) (n : Nat)
    (hrole : u.role = Role.teacher) (hpid : u.teacherProfileId = some tid) :
    (createGradeData u gb).teacherId = some tid ∧
    (∀ g ∈ batchCreateGradesData u gbs, g.teacherId = some tid) ∧
    (attendanceData u ab).teacherId = some tid ∧
    (createAttRec (attendanceData u ab) n).teacherId = some tid ∧
    (applyAttUpdate (attendanceData u ab) r).teacherId = some tid ∧
    (∀ t1 t2 : Option String,
      attendanceData u { ab with teacherId := t1 } =
        attendanceData u { ab with teacherId := t2 } ∧
      createGradeData u { gb with teacherId := t1 } =
        createGradeData u { gb with teacherId := t2 }) := by
  refine ⟨?_, ?_, ?_, ?_, ?_, ?_⟩ <;>
    simp [createGradeData, batchCreateGradesData, attendanceData, createAttRec,
      applyAttUpdate, optUpd, hrole, hpid]

/-- Concrete instance of the C10 theorem: a teacher with profile id `t-1`
creating a grade whose body claims `teacherId = t-666` still stores `t-1`. -/
theorem stored_teacherId_forced_witness :
    (createGradeData ⟨Role.teacher, none, some "t-1", none⟩
      ⟨"s-1", "sub-1", "c-1", 95, "exam", 1, "2024-2025", none, none, some "t-666"⟩).teacherId =
      some "t-1" :=
  (stored_teacherId_forced ⟨Role.teacher, none, some "t-1", none⟩ "t-1"
    ⟨"s-1", "sub-1", "c-1", 95, "exam", 1, "2024-2025", none, none, some "t-666"⟩ []
    ⟨"s-1", "c-1", none, "2025-01-10", "present", none, none, none, none, none⟩
    ⟨0, "s-1", "c-1", none, "2025-01-10", none, "present", none, none, none, none⟩ 0
    rfl rfl).1

end Edutizim
